import Mathlib

/-!
# Verification of the realtime ASR streaming pipeline

Shallow embedding of the audio-streaming parts of the repository
`virtual-avatar-agent`:

* `back_end/routers/sr_router.py` — the transcription worker
  (`asr_worker_thread`), the audio ingress queue handling, the
  client-facing session loop and the shutdown sequence of the
  `realtime_asr` WebSocket endpoint;
* `back_end/sr/asr_realtime.py` — the `RealtimeASR` session adapter.

Bytes are modelled as `Nat`, byte strings as `List Nat`.
-/

/-- An audio frame as received from the client: a byte string. -/
abbrev Frame := List Nat

/-- Result of one `audio_queue.get(timeout=0.1)` call inside the worker loop
(`sr_router.py:180`): a real audio frame, the `None` sentinel, or a
`queue.Empty` timeout. -/
inductive DeqR : Type
  | frame (f : Frame)
  | sentinel
  | timeout
  deriving DecidableEq

/-- Outcome of the worker's streaming loop (`sr_router.py:177-211`).
`sent` are the chunks successfully passed to `asr.send_audio_chunk`, in order;
`buf` is the `audio_buffer` list at loop exit; `rest` are the dequeue results
never consumed because the loop exited first; `sendIdx` is the index of the
next send attempt; `brokeOnError` records whether the loop exited through the
`except Exception` handler around a failed send. -/
structure RunOut : Type where
  sent : List (List Nat)
  buf : List Frame
  rest : List DeqR
  sendIdx : Nat
  brokeOnError : Bool
  deriving DecidableEq

/-- The worker's streaming loop, `sr_router.py:177-211`.

Each iteration first tests the stop flag (`while not stop_event.is_set()`,
modelled by the schedule `stop : Nat → Bool`, indexed by iteration number),
then consumes the next dequeue result.  A timeout (`queue.Empty`) continues;
the `None` sentinel breaks, leaving the rest of the queue untouched; a frame
is appended to `audio_buffer` and, once the summed byte size reaches
`chunk_size`, the whole joined buffer is sent and the buffer cleared.  The
send oracle `ok : Nat → Bool` tells whether the `k`-th
`asr.send_audio_chunk` call succeeds; a raising send is caught by the inner
`except Exception` handler, which logs and breaks, leaving the buffer
uncleared.  The trace is the finite list of dequeue results observed during
the run; an exhausted trace ends the modelled run with the loop state. -/
def wloop (c : Nat) (stop ok : Nat → Bool) :
    Nat → Nat → List DeqR → List Frame → RunOut
  | _, k, [], buf => ⟨[], buf, [], k, false⟩
  | i, k, t :: rest, buf =>
    if stop i then ⟨[], buf, t :: rest, k, false⟩
    else
      match t with
      | .timeout => wloop c stop ok (i+1) k rest buf
      | .sentinel => ⟨[], buf, rest, k, false⟩
      | .frame f =>
        let buf' := buf ++ [f]
        if c ≤ (buf'.map List.length).sum then
          if ok k then
            let r := wloop c stop ok (i+1) (k+1) rest []
            ⟨buf'.flatten :: r.sent, r.buf, r.rest, r.sendIdx, r.brokeOnError⟩
          else ⟨[], buf', rest, k+1, true⟩
        else wloop c stop ok (i+1) k rest buf'

/-- Result of a whole worker run: the chunks that reached the adapter and
whether the outer `except Exception` handler sent an `error` message to the
client (`sr_router.py:224-232`). -/
structure WRes : Type where
  sent : List (List Nat)
  errorEvent : Bool
  deriving DecidableEq

/-- The drain flush after the loop plus the outer exception handler,
`sr_router.py:213-232`.  `if audio_buffer:` — the flush happens exactly when
the frame *list* is nonempty; its send uses the next oracle index, and a
raising flush send propagates to the outer handler, which emits the `error`
event.  Returns the run result together with the dequeue results left
unconsumed. -/
def runWorkerFrom (c : Nat) (stop ok : Nat → Bool) (i k : Nat)
    (trace : List DeqR) (buf : List Frame) : WRes × List DeqR :=
  let r := wloop c stop ok i k trace buf
  match r.buf with
  | [] => (⟨r.sent, false⟩, r.rest)
  | _ =>
    if ok r.sendIdx then (⟨r.sent ++ [r.buf.flatten], false⟩, r.rest)
    else (⟨r.sent, true⟩, r.rest)

/-- A full worker run from a fresh state (`audio_buffer = []`). -/
def runWorker (c : Nat) (stop ok : Nat → Bool) (trace : List DeqR) : WRes :=
  (runWorkerFrom c stop ok 0 0 trace []).1

/-- Stop flag never observed set. -/
def stopNever : Nat → Bool := fun _ => false

/-- Stop flag observed set at every check. -/
def stopAlways : Nat → Bool := fun _ => true

/-- Every send succeeds. -/
def sendOk : Nat → Bool := fun _ => true

/-- The frames of a dequeue trace that the loop can see before the first
sentinel, in arrival order. -/
def framesBefore : List DeqR → List Frame
  | [] => []
  | .sentinel :: _ => []
  | .timeout :: r => framesBefore r
  | .frame f :: r => f :: framesBefore r

/-- A trace made of the given frames followed by the stop sentinel. -/
def frameTrace (fs : List Frame) : List DeqR :=
  fs.map DeqR.frame ++ [DeqR.sentinel]

/-! ## The `RealtimeASR` session adapter (`back_end/sr/asr_realtime.py`) -/

/-- An action performed on the remote Dashscope channel by `RealtimeASR`:
`conversation.connect()` / `update_session` during `connect`
(`asr_realtime.py:243,252`), `conversation.append_audio` during
`send_audio_chunk` (`asr_realtime.py:274`), and `conversation.close()`
during `close` (`asr_realtime.py:302`). -/
inductive RAct : Type
  | connectRemote
  | updateSession
  | appendAudio (b64 : List Nat)
  | closeRemote
  deriving DecidableEq

/-- The state of a `RealtimeASR` instance (`asr_realtime.py:160-195`):
whether `self.conversation` is set (it is assigned in `connect` and never
reset to `None`), the `self.is_connected` flag, the log of actions performed
on the remote channel, and the stored recognition results. -/
structure ASR : Type where
  hasConversation : Bool
  is_connected : Bool
  remote : List RAct
  final_texts : List String
  partial_texts : List String
  deriving DecidableEq

/-- A freshly constructed `RealtimeASR` (`asr_realtime.py:189-195`):
`conversation = None`, `is_connected = False`, empty result lists. -/
def ASR.init : ASR := ⟨false, false, [], [], []⟩

/-- The error raised by a `RealtimeASR` call; the spec calls the send-side
one `NotConnectedError` (the source raises `RuntimeError` with a
"not connected" message, `asr_realtime.py:271`). -/
inductive ASRErr : Type
  | alreadyConnected
  | notConnected
  | connectRemoteFailed
  deriving DecidableEq

/-- `RealtimeASR.connect` (`asr_realtime.py:197-258`): raises if already
connected; otherwise assigns `self.conversation`, calls
`conversation.connect()` on the remote channel (whose success is the
parameter `remoteOk`; a raising remote connect propagates and leaves
`is_connected` unset), then `update_session`, and sets
`is_connected = True`. -/
def ASR.connect (s : ASR) (remoteOk : Bool) : ASR × Option ASRErr :=
  if s.is_connected then (s, some ASRErr.alreadyConnected)
  else
    let s1 : ASR := { s with hasConversation := true,
                             remote := s.remote ++ [RAct.connectRemote] }
    if remoteOk then
      ({ s1 with remote := s1.remote ++ [RAct.updateSession],
                 is_connected := true }, none)
    else (s1, some ASRErr.connectRemoteFailed)

/-- `RealtimeASR.send_audio_chunk` (`asr_realtime.py:263-274`): raises the
not-connected error when `not self.is_connected or not self.conversation`,
leaving the state untouched; otherwise appends the (base64 of the) audio to
the remote channel. -/
def ASR.send_audio_chunk (s : ASR) (d : List Nat) : ASR × Option ASRErr :=
  if !s.is_connected || !s.hasConversation then (s, some ASRErr.notConnected)
  else ({ s with remote := s.remote ++ [RAct.appendAudio d] }, none)

/-- `RealtimeASR.close` (`asr_realtime.py:299-305`): when
`self.conversation` is set it calls `conversation.close()` on the remote
channel and clears `is_connected`; `self.conversation` itself is never
cleared. -/
def ASR.close (s : ASR) : ASR :=
  if s.hasConversation then
    { s with remote := s.remote ++ [RAct.closeRemote], is_connected := false }
  else s

/-! ## The audio ingress queue (`queue.Queue(maxsize=100)`, `sr_router.py:262`)

The session loop enqueues with `audio_queue.put_nowait(audio_data)` and
catches `queue.Full`, logging and dropping the frame (`sr_router.py:322-331`).
`put_nowait` on a queue holding at least `maxsize` items raises `Full`
without touching the queue. -/

/-- Non-blocking enqueue: returns `false` and leaves the queue untouched when
it is full, else appends the frame at the tail. -/
def tryEnqueue (cap : Nat) (q : List Frame) (f : Frame) : Bool × List Frame :=
  if cap ≤ q.length then (false, q) else (true, q ++ [f])

/-- The queue capacity used by `realtime_asr` (`maxsize=100`). -/
def queueCapacity : Nat := 100

/-! ## The shutdown coordinator (`sr_router.py:356-397`) -/

/-- One observable step of the `finally` block of `realtime_asr`. -/
inductive SAct : Type
  | setStopFlag
  | pushSentinel
  | waitWorker
  | logWaitTimeout
  | adapterClose
  | logAdapterCloseFailure
  | executorShutdown
  | dropConnectionRecord
  | wsClose
  deriving DecidableEq

/-- The sequence of steps the `finally` block performs
(`sr_router.py:356-397`), given which of its guarded operations fail:
`stop_event.set()`; `audio_queue.put_nowait(None)` inside `try/except`
(a full queue raises `Full`, which is swallowed — `queueFull` changes
nothing observable); `worker_future.result(timeout=5)` inside `try/except`
(on timeout it logs and proceeds); `asr.close()` inside `try/except` (a
failure is logged and swallowed); `executor.shutdown(...)`; deletion of the
`active_connections` record; `websocket.close()` inside `try/except` (a
failure on an already-closed peer is swallowed). -/
def shutdownTrace (queueFull workerTimesOut adapterCloseFails wsCloseFails :
    Bool) : List SAct :=
  [SAct.setStopFlag, SAct.pushSentinel, SAct.waitWorker]
    ++ (if workerTimesOut then [SAct.logWaitTimeout] else [])
    ++ [SAct.adapterClose]
    ++ (if adapterCloseFails then [SAct.logAdapterCloseFailure] else [])
    ++ [SAct.executorShutdown, SAct.dropConnectionRecord, SAct.wsClose]

/-! ## Session-loop startup (`sr_router.py:286-298`) -/

/-- What the transcription worker has reported so far when the session loop
resumes after its grace period. -/
inductive WorkerPhase : Type
  | connecting
  | streaming
  deriving DecidableEq

/-- One observable step of the session loop between accepting the socket and
entering its receive loop. -/
inductive StartupStep : Type
  | sleepGraceSecond
  | sendConnectedMessage
  deriving DecidableEq

/-- The startup sequence of `realtime_asr` after submitting the worker
(`sr_router.py:287-295`): `await asyncio.sleep(1)` and then
`websocket.send_json({"type": "connected", ...})`, with no inspection of any
worker-state report — the `WorkerPhase` argument is not consulted. -/
def startupSteps (p : WorkerPhase) : List StartupStep :=
  [StartupStep.sleepGraceSecond, StartupStep.sendConnectedMessage]

/-! ## A store model for the result-list copies (`asr_realtime.py:307-313`)

Python lists are heap objects; to state that `get_final_texts` returns a
*copy* of `self.final_texts` we model a heap of string lists, addressed by
allocation index.  The instance's `final_texts` (resp. `partial_texts`)
attribute is an address into the store. -/

/-- A heap of Python list objects holding strings; an address is an index,
and allocation appends at the end. -/
abbrev Store := List (List String)

/-- `RealtimeASR.get_final_texts` (`asr_realtime.py:307-309`):
`return self.final_texts.copy()` — allocates a fresh list object with the
same contents as the one at address `a` and returns its address; the store
entry at `a` itself is not written. -/
def get_final_texts (st : Store) (a : Nat) : Store × Nat :=
  (st ++ [st.getD a []], st.length)

/-- `RealtimeASR.get_partial_texts` (`asr_realtime.py:311-313`):
`return self.partial_texts.copy()`, same shape as `get_final_texts`. -/
def get_partial_texts (st : Store) (a : Nat) : Store × Nat :=
  (st ++ [st.getD a []], st.length)

/-- In-place mutation of the list object at address `b` (what a caller does
to the returned list, e.g. `append` or item assignment). -/
def mutateAt (st : Store) (b : Nat) (v : List String) : Store :=
  st.set b v

/-! ## Helper lemmas about the worker loop -/

/-- `framesBefore` of a sentinel-terminated frame trace is the frame list. -/
theorem framesBefore_frameTrace (fs : List Frame) :
    framesBefore (frameTrace fs) = fs := by
  induction fs with
  | nil => rfl
  | cons f rest ih =>
    simp only [frameTrace, List.map_cons, List.cons_append, framesBefore]
    simpa [frameTrace] using ih

/-- Byte preservation of the streaming loop: with the stop flag never set and
all sends succeeding, the bytes sent so far plus the bytes still buffered are
exactly the initial buffer bytes followed by the bytes of the dequeued
frames, in order. -/
theorem wloop_flatten_eq (c : Nat) (trace : List DeqR) :
    ∀ (buf : List Frame) (i k : Nat),
      (wloop c stopNever sendOk i k trace buf).sent.flatten ++
        (wloop c stopNever sendOk i k trace buf).buf.flatten =
      buf.flatten ++ (framesBefore trace).flatten := by
  induction trace with
  | nil => intro buf i k; simp [wloop, framesBefore]
  | cons t rest ih =>
    intro buf i k
    cases t with
    | timeout => simp [wloop, stopNever, framesBefore, ih]
    | sentinel => simp [wloop, stopNever, framesBefore]
    | frame f =>
      simp only [wloop, stopNever, if_false, Bool.false_eq_true, ite_false]
      by_cases h : c ≤ ((buf ++ [f]).map List.length).sum
      · simp only [h, if_true, sendOk, ite_true]
        simp [framesBefore, ih]
      · simp only [h, if_false, ite_false]
        simp [framesBefore, ih]

/-- Every chunk the streaming loop hands to `asr.send_audio_chunk` has at
least `c` bytes, whatever the stop schedule and send outcomes are: the send
at `sr_router.py:199` is guarded by `buffer_size >= chunk_size`. -/
theorem wloop_sent_ge (c : Nat) (stop ok : Nat → Bool) (trace : List DeqR) :
    ∀ (buf : List Frame) (i k : Nat) (ch : List Nat),
      ch ∈ (wloop c stop ok i k trace buf).sent → c ≤ ch.length := by
  induction trace with
  | nil => intro buf i k ch h; simp [wloop] at h
  | cons t rest ih =>
    intro buf i k ch h
    rw [wloop.eq_def] at h
    by_cases hs : stop i
    · simp [hs] at h
    · simp only [hs, Bool.false_eq_true, if_false, ite_false] at h
      cases t with
      | timeout => exact ih buf (i+1) k ch h
      | sentinel => simp at h
      | frame f =>
        simp only at h
        by_cases hc : c ≤ ((buf ++ [f]).map List.length).sum
        · simp only [hc, if_true, ite_true] at h
          by_cases hk : ok k
          · simp only [hk, if_true, ite_true] at h
            rcases List.mem_cons.mp h with h1 | h2
            · subst h1; rw [List.length_flatten]; exact hc
            · exact ih [] (i+1) (k+1) ch h2
          · simp [hk] at h
        · simp only [hc, if_false, ite_false] at h
          exact ih (buf ++ [f]) (i+1) k ch h

/-- With all sends succeeding, a full worker run forwards the loop's chunks
followed by the drain flush, which happens exactly when the `audio_buffer`
frame list is nonempty at loop exit (`if audio_buffer:` at
`sr_router.py:214`). -/
theorem runWorker_sent_eq (c : Nat) (stop : Nat → Bool) (trace : List DeqR) :
    (runWorker c stop sendOk trace).sent =
      (wloop c stop sendOk 0 0 trace []).sent ++
        (if (wloop c stop sendOk 0 0 trace []).buf = [] then []
         else [(wloop c stop sendOk 0 0 trace []).buf.flatten]) := by
  unfold runWorker runWorkerFrom
  cases hb : (wloop c stop sendOk 0 0 trace []).buf with
  | nil => simp [hb]
  | cons x xs => simp [hb, sendOk]

/-! ## Claims -/

set_option maxRecDepth 10000

/-- C1, counterexample.  The claim predicts that three 2000-byte frames with
threshold 3200 are forwarded as one 3200-byte chunk plus a 2800-byte drain
chunk.  The worker instead sends the *whole* accumulated buffer as soon as
it reaches the threshold (`sr_router.py:193-199`), so the run forwards one
4000-byte chunk and then a 2000-byte drain chunk. -/
theorem c1_counterexample :
    ((runWorker 3200 stopNever sendOk
        (frameTrace [List.replicate 2000 0, List.replicate 2000 0,
          List.replicate 2000 0])).sent).map List.length = [4000, 2000] ∧
    ((runWorker 3200 stopNever sendOk
        (frameTrace [List.replicate 2000 0, List.replicate 2000 0,
          List.replicate 2000 0])).sent).map List.length ≠ [3200, 2800] := by
  constructor
  · simp [runWorker, runWorkerFrom, frameTrace, wloop, stopNever, sendOk]
  · simp [runWorker, runWorkerFrom, frameTrace, wloop, stopNever, sendOk]

/-- C1, amended.  The worker does not re-split the buffer into
threshold-sized pieces: whenever the accumulated frames reach at least
`chunk_size` bytes it forwards the whole joined buffer as one chunk (which
may exceed the threshold), and at drain it forwards whatever remains.  No
byte is lost, duplicated, or reordered: the concatenation of all forwarded
chunks equals the concatenation of the enqueued frames in arrival order.
For three 2000-byte frames and threshold 3200 the forwarded chunks are one
4000-byte chunk and then a final 2000-byte chunk. -/
theorem c1_amended (c : Nat) (fs : List Frame) :
    ((runWorker c stopNever sendOk (frameTrace fs)).sent).flatten =
      fs.flatten ∧
    ((runWorker 3200 stopNever sendOk
        (frameTrace [List.replicate 2000 0, List.replicate 2000 0,
          List.replicate 2000 0])).sent).map List.length = [4000, 2000] := by
  constructor
  · have h := wloop_flatten_eq c (frameTrace fs) [] 0 0
    rw [framesBefore_frameTrace] at h
    simp only [List.flatten_nil, List.nil_append] at h
    rw [runWorker_sent_eq]
    by_cases hb : (wloop c stopNever sendOk 0 0 (frameTrace fs) []).buf = []
    · rw [hb] at h
      simp only [List.flatten_nil, List.append_nil] at h
      simpa [hb] using h
    · simp only [hb, if_neg, ite_false, List.flatten_append]
      simpa using h
  · simp [runWorker, runWorkerFrom, frameTrace, wloop, stopNever, sendOk]

/-- C2, counterexample.  The drain flush is guarded by `if audio_buffer:`
(`sr_router.py:214`), which tests the frame *list*, not the byte count: a
single enqueued zero-length frame leaves a nonempty buffer list holding zero
bytes, and the drain then sends a 0-byte chunk instead of skipping it. -/
theorem c2_counterexample :
    (runWorker 3200 stopNever sendOk (frameTrace [[]])).sent =
      [([] : List Nat)] ∧
    ([] : List Nat).length = 0 := by
  constructor
  · simp [runWorker, runWorkerFrom, frameTrace, wloop, stopNever, sendOk]
  · rfl

/-- C2, amended.  Every chunk forwarded by the streaming loop has at least
`chunk_size` bytes, whatever the stop schedule and send outcomes; the drain
flush is skipped exactly when the buffered frame *list* is empty at loop
exit — a buffer of zero-length frames still produces a (zero-byte) final
send. -/
theorem c2_amended (c : Nat) (stop ok : Nat → Bool) (trace : List DeqR) :
    (∀ ch ∈ (wloop c stop ok 0 0 trace []).sent, c ≤ ch.length) ∧
    (runWorker c stop sendOk trace).sent =
      (wloop c stop sendOk 0 0 trace []).sent ++
        (if (wloop c stop sendOk 0 0 trace []).buf = [] then []
         else [(wloop c stop sendOk 0 0 trace []).buf.flatten]) := by
  exact ⟨fun ch h => wloop_sent_ge c stop ok trace [] 0 0 ch h,
    runWorker_sent_eq c stop trace⟩

/-- C2, witness: a concrete chunk forwarded by the loop meets the
threshold. -/
theorem c2_amended_witness :
    ([5, 6] ∈ (wloop 2 stopNever sendOk 0 0 (frameTrace [[5, 6]]) []).sent) ∧
    2 ≤ ([5, 6] : List Nat).length :=
  ⟨by decide, (c2_amended 2 stopNever sendOk (frameTrace [[5, 6]])).1
    [5, 6] (by decide)⟩

/-- C3.  Whatever fails during shutdown (full queue, worker-wait timeout,
raising adapter close, raising socket close), the `finally` block of
`realtime_asr` performs its steps in order: set the stop flag, push the
sentinel, wait for the worker (logging and proceeding on timeout), close the
adapter (tolerating failure), release the executor, close the client
connection; the adapter close is reached even when the worker wait timed
out. -/
theorem c3_shutdown_order (qf wt acf wcf : Bool) :
    ((shutdownTrace qf wt acf wcf).indexOf SAct.setStopFlag <
        (shutdownTrace qf wt acf wcf).indexOf SAct.pushSentinel ∧
      (shutdownTrace qf wt acf wcf).indexOf SAct.pushSentinel <
        (shutdownTrace qf wt acf wcf).indexOf SAct.waitWorker ∧
      (shutdownTrace qf wt acf wcf).indexOf SAct.waitWorker <
        (shutdownTrace qf wt acf wcf).indexOf SAct.adapterClose ∧
      (shutdownTrace qf wt acf wcf).indexOf SAct.adapterClose <
        (shutdownTrace qf wt acf wcf).indexOf SAct.executorShutdown ∧
      (shutdownTrace qf wt acf wcf).indexOf SAct.executorShutdown <
        (shutdownTrace qf wt acf wcf).indexOf SAct.wsClose) ∧
    SAct.adapterClose ∈ shutdownTrace qf wt acf wcf ∧
    SAct.wsClose ∈ shutdownTrace qf wt acf wcf ∧
    (wt = true →
      SAct.logWaitTimeout ∈ shutdownTrace qf wt acf wcf ∧
      (shutdownTrace qf wt acf wcf).indexOf SAct.waitWorker <
        (shutdownTrace qf wt acf wcf).indexOf SAct.logWaitTimeout ∧
      (shutdownTrace qf wt acf wcf).indexOf SAct.logWaitTimeout <
        (shutdownTrace qf wt acf wcf).indexOf SAct.adapterClose) ∧
    (acf = true →
      SAct.logAdapterCloseFailure ∈ shutdownTrace qf wt acf wcf) := by
  cases qf <;> cases wt <;> cases acf <;> cases wcf <;> decide

/-- C3, witness: with every failure flag raised, the timeout is logged, the
failing adapter close is logged, and the adapter close is still reached. -/
theorem c3_shutdown_order_witness :
    (true = true) ∧
    SAct.logWaitTimeout ∈ shutdownTrace true true true true ∧
    SAct.logAdapterCloseFailure ∈ shutdownTrace true true true true ∧
    SAct.adapterClose ∈ shutdownTrace true true true true :=
  ⟨rfl, ((c3_shutdown_order true true true true).2.2.2.1 rfl).1,
    (c3_shutdown_order true true true true).2.2.2.2 rfl,
    (c3_shutdown_order true true true true).2.1⟩

/-- C4.  `send_audio_chunk` fails with the not-connected error and leaves
the instance (hence the remote action log) untouched when called on a fresh
instance, on an instance whose `connect` failed remotely, or on any instance
after `close` — `close` either clears `is_connected` or leaves a
never-connected state, and the guard at `asr_realtime.py:270` then raises
before `append_audio`. -/
theorem c4_send_requires_connection (s : ASR) (d : List Nat) :
    ASR.send_audio_chunk ASR.init d = (ASR.init, some ASRErr.notConnected) ∧
    ASR.send_audio_chunk (ASR.close s) d =
      (ASR.close s, some ASRErr.notConnected) ∧
    ASR.send_audio_chunk (ASR.connect ASR.init false).1 d =
      ((ASR.connect ASR.init false).1, some ASRErr.notConnected) := by
  refine ⟨rfl, ?_, rfl⟩
  unfold ASR.close ASR.send_audio_chunk
  cases hc : s.hasConversation <;> cases hi : s.is_connected <;> simp [hc, hi]

/-- C5.  `put_nowait` on the full audio ingress queue raises `queue.Full`,
which the session loop catches and logs (`sr_router.py:330-331`): the
enqueue reports failure and the queue's contents are unchanged, in their
original order. -/
theorem c5_enqueue_full (cap : Nat) (q : List Frame) (f : Frame)
    (h : cap ≤ q.length) : tryEnqueue cap q f = (false, q) := by
  unfold tryEnqueue
  simp [h]

/-- C5, witness: dropping a frame on a queue filled to the default capacity
of 100. -/
theorem c5_enqueue_full_witness :
    queueCapacity ≤ (List.replicate 100 ([] : Frame)).length ∧
    tryEnqueue queueCapacity (List.replicate 100 ([] : Frame)) [7] =
      (false, List.replicate 100 ([] : Frame)) :=
  ⟨by decide, c5_enqueue_full queueCapacity (List.replicate 100 []) [7]
    (by decide)⟩

/-- C6, counterexample.  A raising `send_audio_chunk` inside the loop is
caught by the inner handler, which only logs and breaks
(`sr_router.py:207-211`); the buffered bytes are then re-sent by the drain
flush, and when that retry succeeds no `error` event is ever emitted to the
client: with threshold 4, frames of 2+2 bytes and the first send failing,
the run ends with the chunk delivered by the flush and `errorEvent = false`,
contradicting the claimed Error event. -/
theorem c6_counterexample :
    (wloop 4 stopNever (fun k => decide (0 < k)) 0 0
      (frameTrace [[1, 1], [2, 2]]) []).brokeOnError = true ∧
    runWorker 4 stopNever (fun k => decide (0 < k))
      (frameTrace [[1, 1], [2, 2]]) = ⟨[[1, 1, 2, 2]], false⟩ := by
  decide

/-- C6, amended.  A send exception inside the loop is caught and logged and
terminates the loop without clearing the buffer (so the host process never
sees it); the drain flush then re-attempts the buffered bytes, and the
`error` event reaches the client exactly when the drain-flush send itself
raises (handled by the outer `except`, `sr_router.py:224-232`) — not
whenever a loop send raised. -/
theorem c6_amended (c : Nat) (stop ok : Nat → Bool) (trace : List DeqR) :
    (runWorker c stop ok trace).errorEvent =
      (!(wloop c stop ok 0 0 trace []).buf.isEmpty &&
        !ok (wloop c stop ok 0 0 trace []).sendIdx) ∧
    (runWorker c stop ok trace).sent =
      (wloop c stop ok 0 0 trace []).sent ++
        (if (wloop c stop ok 0 0 trace []).buf.isEmpty ||
             !ok (wloop c stop ok 0 0 trace []).sendIdx then []
         else [(wloop c stop ok 0 0 trace []).buf.flatten]) := by
  unfold runWorker runWorkerFrom
  cases hb : (wloop c stop ok 0 0 trace []).buf with
  | nil => simp [hb]
  | cons x xs =>
    cases hk : ok (wloop c stop ok 0 0 trace []).sendIdx <;> simp [hb, hk]

/-- C7, counterexample.  `close` never clears `self.conversation`
(`asr_realtime.py:299-305`), so a second `close` call runs
`self.conversation.close()` again: after `connect` and one `close`, a second
`close` appends another `closeRemote` action to the remote channel — it is
not a no-op on the remote channel. -/
theorem c7_counterexample :
    (ASR.close (ASR.close (ASR.connect ASR.init true).1)).remote ≠
      (ASR.close (ASR.connect ASR.init true).1).remote ∧
    (ASR.close (ASR.close (ASR.connect ASR.init true).1)).remote =
      [RAct.connectRemote, RAct.updateSession, RAct.closeRemote,
        RAct.closeRemote] := by
  decide

/-- C7, amended.  A second `close` leaves every local field unchanged
(`is_connected` stays `False`, the conversation reference and the stored
results are untouched) and raises nothing, but — because the conversation
reference is never cleared — it invokes `conversation.close()` on the remote
channel a second time. -/
theorem c7_amended (s : ASR) :
    (ASR.close (ASR.close s)).is_connected = (ASR.close s).is_connected ∧
    (ASR.close (ASR.close s)).hasConversation =
      (ASR.close s).hasConversation ∧
    (ASR.close (ASR.close s)).final_texts = (ASR.close s).final_texts ∧
    (ASR.close (ASR.close s)).partial_texts = (ASR.close s).partial_texts ∧
    (s.hasConversation = true →
      (ASR.close (ASR.close s)).remote =
        (ASR.close s).remote ++ [RAct.closeRemote]) := by
  unfold ASR.close
  cases hc : s.hasConversation <;> simp [hc]

/-- C7, witness: the double close after a successful connect. -/
theorem c7_amended_witness :
    (ASR.connect ASR.init true).1.hasConversation = true ∧
    (ASR.close (ASR.close (ASR.connect ASR.init true).1)).remote =
      (ASR.close (ASR.connect ASR.init true).1).remote ++
        [RAct.closeRemote] :=
  ⟨by decide, (c7_amended (ASR.connect ASR.init true).1).2.2.2.2 (by decide)⟩

/-- C8, counterexample.  The session loop never reads any worker report: it
sleeps one second and then sends the `connected` acknowledgment
unconditionally (`sr_router.py:288-295`), so the acknowledgment is sent even
when the worker is still connecting — contradicting "only once the worker
has reported reaching its Streaming state". -/
theorem c8_counterexample :
    StartupStep.sendConnectedMessage ∈ startupSteps WorkerPhase.connecting ∧
    startupSteps WorkerPhase.connecting =
      [StartupStep.sleepGraceSecond, StartupStep.sendConnectedMessage] := by
  decide

/-- C8, amended.  After starting the worker, the session loop waits a fixed
one-second grace period and then always sends the `Connected`
acknowledgment, independent of what the worker has reported; it does not
hard-fail while the worker is still connecting (frames simply wait in the
queue). -/
theorem c8_amended (p : WorkerPhase) :
    startupSteps p =
      [StartupStep.sleepGraceSecond, StartupStep.sendConnectedMessage] ∧
    startupSteps WorkerPhase.connecting =
      startupSteps WorkerPhase.streaming := by
  cases p <;> exact ⟨rfl, rfl⟩

/-- C9.  Every loop iteration re-tests the stop flag before dequeuing
(`while not stop_event.is_set()`, `sr_router.py:177`): once the flag is
observed set, the worker exits at once — it consumes nothing more from the
queue (the pending dequeue results are left exactly as they were), sends no
chunk from the loop, and the drain flush forwards precisely the bytes
already in its internal buffer; queued-but-undequeued frames are silently
discarded. -/
theorem c9_stop_skips_queue (c i k : Nat) (ok : Nat → Bool)
    (trace : List DeqR) (buf : List Frame) :
    wloop c stopAlways ok i k trace buf = ⟨[], buf, trace, k, false⟩ ∧
    (runWorkerFrom c stopAlways sendOk i k trace buf).2 = trace ∧
    ((runWorkerFrom c stopAlways sendOk i k trace buf).1).sent.flatten =
      buf.flatten := by
  have h : ∀ ok2 : Nat → Bool,
      wloop c stopAlways ok2 i k trace buf = ⟨[], buf, trace, k, false⟩ := by
    intro ok2
    cases trace with
    | nil => rfl
    | cons t rest => rw [wloop.eq_def]; simp [stopAlways]
  refine ⟨h ok, ?_, ?_⟩
  · unfold runWorkerFrom
    rw [h sendOk]
    cases buf with
    | nil => rfl
    | cons x xs => simp [sendOk]
  · unfold runWorkerFrom
    rw [h sendOk]
    cases buf with
    | nil => rfl
    | cons x xs => simp [sendOk]

/-- Writing one store address leaves every other address unchanged. -/
theorem store_getD_set_ne (l : Store) :
    ∀ (i j : Nat) (v : List String), i ≠ j →
      (l.set i v).getD j [] = l.getD j [] := by
  induction l with
  | nil => intro i j v _; simp
  | cons x xs ih =>
    intro i j v hij
    cases i with
    | zero =>
      cases j with
      | zero => exact absurd rfl hij
      | succ j => simp [List.set, List.getD_cons_succ]
    | succ i =>
      cases j with
      | zero => simp [List.set, List.getD_cons_zero]
      | succ j =>
        have : i ≠ j := fun hh => hij (by rw [hh])
        simpa [List.set, List.getD_cons_succ] using ih i j v this

/-- C10.  `get_final_texts` / `get_partial_texts` return
`self.final_texts.copy()` / `self.partial_texts.copy()`
(`asr_realtime.py:307-313`): the call writes no existing store address (the
instance's state is unmodified), the returned list is a fresh object whose
contents equal the stored list, mutating the returned object leaves the
instance's stored list unchanged, and two successive calls with no
intervening callback return lists with equal contents. -/
theorem c10_results_copied (st : Store) (a : Nat) (h : a < st.length) :
    (∀ j, j < st.length →
      (get_final_texts st a).1.getD j [] = st.getD j []) ∧
    (get_final_texts st a).2 = st.length ∧
    a ≠ (get_final_texts st a).2 ∧
    (get_final_texts st a).1.getD (get_final_texts st a).2 [] =
      st.getD a [] ∧
    (∀ v, (mutateAt (get_final_texts st a).1 (get_final_texts st a).2
        v).getD a [] = st.getD a []) ∧
    (get_final_texts (get_final_texts st a).1 a).1.getD
        (get_final_texts (get_final_texts st a).1 a).2 [] =
      (get_final_texts st a).1.getD (get_final_texts st a).2 [] ∧
    (∀ v, (mutateAt (get_partial_texts st a).1 (get_partial_texts st a).2
        v).getD a [] = st.getD a []) := by
  refine ⟨?_, rfl, Nat.ne_of_lt h, ?_, ?_, ?_, ?_⟩
  · intro j hj
    exact List.getD_append _ _ _ _ hj
  · simp [get_final_texts, List.getD_append_right]
  · intro v
    unfold mutateAt get_final_texts
    rw [store_getD_set_ne _ _ _ _ (Ne.symm (Nat.ne_of_lt h))]
    exact List.getD_append _ _ _ _ h
  · have hL : ∀ (l : Store) (x : List String),
        (l ++ [x]).getD l.length [] = x := by
      intro l x
      rw [List.getD_append_right _ _ _ _ (le_refl _)]
      simp
    show ((st ++ [st.getD a []]) ++
          [(st ++ [st.getD a []]).getD a []]).getD
        (st ++ [st.getD a []]).length [] =
      (st ++ [st.getD a []]).getD st.length []
    rw [hL, hL]
    exact List.getD_append _ _ _ _ h
  · intro v
    unfold mutateAt get_partial_texts
    rw [store_getD_set_ne _ _ _ _ (Ne.symm (Nat.ne_of_lt h))]
    exact List.getD_append _ _ _ _ h

/-- C10, witness: on a store holding one result list, mutating the returned
copy leaves the instance's stored list unchanged. -/
theorem c10_results_copied_witness :
    0 < ([["hi"]] : Store).length ∧
    (mutateAt (get_final_texts [["hi"]] 0).1 (get_final_texts [["hi"]] 0).2
        ["bye"]).getD 0 [] = ([["hi"]] : Store).getD 0 [] :=
  ⟨by decide, (c10_results_copied [["hi"]] 0 (by decide)).2.2.2.2.1 ["bye"]⟩
